import Mathlib

/-!
Shallow embedding of the sonos-volume-dial Stream Deck plugin.

The authoritative implementation is the richest variant of the
`SonosVolumeDial` action class (src/scripts/test-sonos-connection.ts,
second document, lines 62-617): the one with the debounce timer
(`volumeChangeTimeout`), the `isRotating` flag and the self-scheduling
poller (`pollWithDelay` / `pollInterval` / `pollTimeoutId`).

Modelling conventions:
- The mutable instance fields of the class become the record `DialState`.
- JavaScript object-or-null fields become `Option` values; the poll
  interval object `{ active: boolean }`, whose non-nullness always
  coincides with `active = true` in the source, is the Bool `pollActive`;
  `pollTimeoutId` presence is the Bool `pollTimeoutId`; the stored
  `currentAction` handle is the Bool `currentAction` (only its presence
  is ever branched on).
- A `Sonos` client handle is represented by the IP string it was
  constructed for (`sonos : Option String`).
- Each event handler becomes a function from the state (plus the event
  payload) to the new state and a list of observable effects, in the
  order the source performs them.  Network calls that the source awaits
  take their outcome as an explicit parameter (`Bool` for writes,
  `Option` of the read value for reads); logging is not modelled.
- Asynchronous continuations (the debounce `setTimeout` callback and
  each poll cycle) are separate step functions, invoked by the event
  loop only while their timer is still pending / the loop still active,
  exactly as `clearTimeout` and the `pollInterval?.active` guards
  arrange in the source.
-/

namespace SonosVolumeDial

/-- The persisted settings shape `SonosVolumeDialSettings`
(`{ value: number; speakerIp?: string; volumeStep: number }`).  `value`
and `volumeStep` are `Option` because the handlers destructure them with
defaults (`value = this.lastKnownVolume` or `50`, `volumeStep = 5`). -/
structure Settings where
  value : Option Int
  speakerIp : Option String
  volumeStep : Option Int
  deriving DecidableEq, Repr

/-- Observable effects of a handler, in program order: UI pushes,
settings persistence, user-visible alerts, and the network operations
issued on the Sonos client.  `setFeedback` records the displayed value
and whether it is dimmed (opacity 0.5, used iff muted). -/
inductive Eff where
  | setFeedback (value : Int) (dimmed : Bool)
  | setSettings (s : Settings)
  | showAlert
  | netNewSonos (ip : String)
  | netGetVolume
  | netGetMuted
  | netSetVolume (v : Int)
  | netSetMuted (m : Bool)
  deriving DecidableEq, Repr

/-- The mutable fields of the `SonosVolumeDial` class instance.
`volumeChangeTimeout` holds the pending debounce callback's captured
data (the speaker IP and the `newValue` closed over by the
`setTimeout` callback), or `none` when no debounce timer is pending. -/
structure DialState where
  sonos : Option String
  lastKnownVolume : Int
  isMuted : Bool
  pollActive : Bool
  pollTimeoutId : Bool
  currentAction : Bool
  currentSettings : Option Settings
  volumeChangeTimeout : Option (String × Int)
  isRotating : Bool
  deriving DecidableEq, Repr

/-- The field initializers of the class. -/
def initialState : DialState :=
  { sonos := none
    lastKnownVolume := 50
    isMuted := false
    pollActive := false
    pollTimeoutId := false
    currentAction := false
    currentSettings := none
    volumeChangeTimeout := none
    isRotating := false }

/-- `Math.max(0, Math.min(100, v))`. -/
def clamp100 (v : Int) : Int := max 0 (min 100 v)

/-- `startPolling(dialAction)`: no-op when a poll is already active;
otherwise clears any stale interval object and timeout, stores the
action handle, and activates the loop provided settings are present.
(The first `pollWithDelay` cycle it kicks off is a separate async step,
modelled by `pollWithDelay` below.) -/
def startPolling (st : DialState) : DialState :=
  if st.pollActive then st
  else if st.currentSettings.isNone then
    { st with pollTimeoutId := false, currentAction := true }
  else
    { st with pollTimeoutId := false, currentAction := true, pollActive := true }

/-- `stopPolling()`: deactivates the loop, clears the scheduled timeout
and drops the stored action and settings. -/
def stopPolling (st : DialState) : DialState :=
  { st with pollActive := false
            pollTimeoutId := false
            currentAction := false
            currentSettings := none }

/-- `onWillDisappear()`: clears the pending debounce timer
(`clearTimeout(this.volumeChangeTimeout)`) then stops polling. -/
def onWillDisappear (st : DialState) : DialState :=
  stopPolling { st with volumeChangeTimeout := none }

/-- The `finally` block of `pollWithDelay`: schedules the next wake
(sets `pollTimeoutId`) iff the loop is still active. -/
def pollReschedule (st : DialState) : DialState :=
  if st.pollActive then { st with pollTimeoutId := true } else st

/-- The read-and-reconcile part of one `pollWithDelay` cycle, after the
connection phase.  `r` is the outcome of
`Promise.all([getVolume(), getMuted()])`: `none` when the read rejects.
On success the cache and UI are updated only when a value changed and
`isRotating` is false; on failure the connection is invalidated
(`this.sonos = null`) with no alert.  Both paths fall through to the
`finally` reschedule. -/
def pollRead (st : DialState) (cs : Settings) (r : Option (Int × Bool))
    (conn : List Eff) : DialState × List Eff :=
  match r with
  | none =>
      (pollReschedule { st with sonos := none },
       conn ++ [Eff.netGetVolume, Eff.netGetMuted])
  | some (v, m) =>
      if (v != st.lastKnownVolume || m != st.isMuted) && !st.isRotating then
        (pollReschedule { st with lastKnownVolume := v, isMuted := m },
         conn ++ [Eff.netGetVolume, Eff.netGetMuted,
                  Eff.setFeedback v m,
                  Eff.setSettings { cs with value := some v }])
      else
        (pollReschedule st, conn ++ [Eff.netGetVolume, Eff.netGetMuted])

/-- One cycle of the self-scheduling poll function `pollWithDelay`.
Early-exits when the loop is inactive (before the `try`, so no
reschedule); stops polling when the stored action or settings are gone,
or when no connection exists and no speaker IP is configured (both
returns happen inside the `try`, so the `finally` sees an inactive loop
and does not reschedule); otherwise reconnects if needed and performs
the reads. -/
def pollWithDelay (st : DialState) (r : Option (Int × Bool)) :
    DialState × List Eff :=
  if !st.pollActive then (st, [])
  else
    match st.currentSettings, st.currentAction with
    | none, _ => (stopPolling st, [])
    | some _, false => (stopPolling st, [])
    | some cs, true =>
      match st.sonos, cs.speakerIp with
      | none, none => (stopPolling st, [])
      | none, some ip =>
          pollRead { st with sonos := some ip } cs r [Eff.netNewSonos ip]
      | some _, _ => pollRead st cs r []

/-- Payload of a `DialRotateEvent`: the settings it carries and the
tick count. -/
structure RotateEv where
  settings : Settings
  ticks : Int
  deriving DecidableEq, Repr

/-- The synchronous part of `onDialRotate`: sets `isRotating`, stores
the settings, computes
`newValue = Math.max(0, Math.min(100, value + ticks * volumeStep))`,
pushes UI feedback and settings, updates `lastKnownVolume`, cancels any
pending debounce timer, and — when a speaker IP is configured — arms a
new debounce timer capturing `(speakerIp, newValue)`.  With no IP it
alerts and clears `isRotating` instead. -/
def onDialRotate (st : DialState) (ev : RotateEv) : DialState × List Eff :=
  let value := ev.settings.value.getD st.lastKnownVolume
  let volumeStep := ev.settings.volumeStep.getD 5
  let newValue := clamp100 (value + ev.ticks * volumeStep)
  let st1 : DialState :=
    { st with isRotating := true
              currentSettings := some ev.settings
              lastKnownVolume := newValue
              volumeChangeTimeout := none }
  let effs : List Eff :=
    [Eff.setFeedback newValue st.isMuted,
     Eff.setSettings { ev.settings with value := some newValue }]
  match ev.settings.speakerIp with
  | some ip => ({ st1 with volumeChangeTimeout := some (ip, newValue) }, effs)
  | none => ({ st1 with isRotating := false }, effs ++ [Eff.showAlert])

/-- Connection phase of the debounce callback:
`if (!this.sonos) this.sonos = new Sonos(speakerIp)`. -/
def fireConn (st : DialState) (ip : String) : DialState × List Eff :=
  match st.sonos with
  | none => ({ st with sonos := some ip }, [Eff.netNewSonos ip])
  | some _ => (st, [])

/-- Unmute phase of the debounce callback:
`if (this.isMuted) { await setMuted(false); this.isMuted = false; }`.
Returns `none` for the state when the awaited `setMuted` rejects (the
exception propagates to the `catch`); the local flag is flipped only
after the await resolves. -/
def fireUnmute (st : DialState) (muteOk : Bool) :
    Option DialState × List Eff :=
  if st.isMuted then
    if muteOk then (some { st with isMuted := false }, [Eff.netSetMuted false])
    else (none, [Eff.netSetMuted false])
  else (some st, [])

/-- The `finally` block of the debounce callback:
`this.isRotating = false; this.startPolling(dialAction)`. -/
def fireFinish (st : DialState) : DialState :=
  startPolling { st with isRotating := false }

/-- The debounce `setTimeout` callback armed by `onDialRotate`, with its
captured `(ip, v)`.  `muteOk` / `volOk` are the outcomes of the awaited
`setMuted(false)` / `setVolume(v)` calls.  Any rejection reaches the
`catch` (`this.sonos = null; showAlert`), and the `finally` always
clears `isRotating` and restarts polling. -/
def fireDebounce (st : DialState) (ip : String) (v : Int)
    (muteOk volOk : Bool) : DialState × List Eff :=
  match fireConn st ip with
  | (st1, connEffs) =>
    match fireUnmute st1 muteOk with
    | (none, e2) =>
        (fireFinish { st1 with sonos := none },
         connEffs ++ e2 ++ [Eff.showAlert])
    | (some st2, e2) =>
        if volOk then
          (fireFinish st2, connEffs ++ e2 ++ [Eff.netSetVolume v])
        else
          (fireFinish { st2 with sonos := none },
           connEffs ++ e2 ++ [Eff.netSetVolume v, Eff.showAlert])

/-- Event-loop semantics of the armed debounce timer: the callback runs
with its captured data only while the timer is still pending; once
`clearTimeout` has run (the field is `none`) it can never run. -/
def fireIfPending (st : DialState) (muteOk volOk : Bool) :
    DialState × List Eff :=
  match st.volumeChangeTimeout with
  | none => (st, [])
  | some (ip, v) => fireDebounce st ip v muteOk volOk

/-- Payload of a `DialUpEvent` / `TouchTapEvent`: only the settings are
read (`const { speakerIp } = ev.payload.settings`). -/
structure PressEv where
  settings : Settings
  deriving DecidableEq, Repr

/-- `onDialUp`: optimistically flips `isMuted`, pushes feedback at the
cached volume with the new opacity, then — when a speaker IP is
configured — runs the background task: reconnect if the handle is gone
(restarting polling if the loop object is null), then `setMuted` with
the new state; on rejection invalidate the handle and alert, keeping
the optimistic UI state.  With no IP it alerts. -/
def onDialUp (st : DialState) (ev : PressEv) (muteOk : Bool) :
    DialState × List Eff :=
  let newMutedState := !st.isMuted
  let st1 : DialState := { st with isMuted := newMutedState }
  let effs : List Eff := [Eff.setFeedback st1.lastKnownVolume newMutedState]
  match ev.settings.speakerIp with
  | none => (st1, effs ++ [Eff.showAlert])
  | some ip =>
    let (st2, connEffs) :=
      match st1.sonos with
      | none =>
          let st2a : DialState := { st1 with sonos := some ip }
          let st2b := if !st2a.pollActive then startPolling st2a else st2a
          (st2b, [Eff.netNewSonos ip])
      | some _ => (st1, ([] : List Eff))
    if muteOk then
      (st2, effs ++ connEffs ++ [Eff.netSetMuted newMutedState])
    else
      ({ st2 with sonos := none },
       effs ++ connEffs ++ [Eff.netSetMuted newMutedState, Eff.showAlert])

/-- `onTouchTap`: same handler body as `onDialUp`, transcribed from its
own source block (lines 480-539). -/
def onTouchTap (st : DialState) (ev : PressEv) (muteOk : Bool) :
    DialState × List Eff :=
  let newMutedState := !st.isMuted
  let st1 : DialState := { st with isMuted := newMutedState }
  let effs : List Eff := [Eff.setFeedback st1.lastKnownVolume newMutedState]
  match ev.settings.speakerIp with
  | none => (st1, effs ++ [Eff.showAlert])
  | some ip =>
    let (st2, connEffs) :=
      match st1.sonos with
      | none =>
          let st2a : DialState := { st1 with sonos := some ip }
          let st2b := if !st2a.pollActive then startPolling st2a else st2a
          (st2b, [Eff.netNewSonos ip])
      | some _ => (st1, ([] : List Eff))
    if muteOk then
      (st2, effs ++ connEffs ++ [Eff.netSetMuted newMutedState])
    else
      ({ st2 with sonos := none },
       effs ++ connEffs ++ [Eff.netSetMuted newMutedState, Eff.showAlert])

/-- `onDidReceiveSettings`: destructures `speakerIp` from the incoming
settings, stores the incoming settings in `this.currentSettings`, and
then compares `speakerIp !== this.currentSettings?.speakerIp` — i.e.
against the settings object it just stored.  The reconnect branch is
transcribed in full (clear handle, stop polling, connect to the new IP,
authoritative read `r`, update cache and UI, restart polling; alert and
drop the handle on read failure). -/
def onDidReceiveSettings (st : DialState) (newSettings : Settings)
    (r : Option (Int × Bool)) : DialState × List Eff :=
  let speakerIp := newSettings.speakerIp
  let st1 : DialState := { st with currentSettings := some newSettings }
  let stored : Option String :=
    match st1.currentSettings with
    | some s => s.speakerIp
    | none => none
  if speakerIp ≠ stored then
    let st2 := stopPolling { st1 with sonos := none }
    match speakerIp with
    | none => (st2, [])
    | some ip =>
      let st3 : DialState := { st2 with sonos := some ip }
      match r with
      | some (v, m) =>
          (startPolling { st3 with lastKnownVolume := v, isMuted := m },
           [Eff.netNewSonos ip, Eff.netGetVolume, Eff.netGetMuted,
            Eff.setFeedback v m,
            Eff.setSettings { newSettings with value := some v }])
      | none =>
          ({ st3 with sonos := none },
           [Eff.netNewSonos ip, Eff.netGetVolume, Eff.netGetMuted,
            Eff.showAlert])
  else (st1, [])

/-- State reached by a burst of rotation events processed back to back
(each one runs the synchronous part of `onDialRotate`). -/
def rotateBurstSt (st : DialState) (evs : List RotateEv) : DialState :=
  evs.foldl (fun s ev => (onDialRotate s ev).1) st

/-- Effects emitted during a burst of rotation events, in order. -/
def rotateBurstEffs (st : DialState) (evs : List RotateEv) : List Eff :=
  match evs with
  | [] => []
  | ev :: rest =>
      (onDialRotate st ev).2 ++ rotateBurstEffs (onDialRotate st ev).1 rest

/-- The arguments of the `setVolume` calls occurring in an effect list,
in order. -/
def setVolumeArgs (l : List Eff) : List Int :=
  l.filterMap fun e =>
    match e with
    | Eff.netSetVolume v => some v
    | _ => none

end SonosVolumeDial

namespace SonosVolumeControl

/-!
Embedding of the `SonosVolumeControl` action class (the variant
registered by the plugin entry point src/src/plugin.ts), from its
source block in src/unnamed/part_001 lines 436-620.  This variant keeps
all state in the persisted settings; its only instance field,
`isDialPressed`, is not involved in rotation handling.
-/

/-- The `SonosSettings` interface:
`{ speakerIp?, volumeStep?, currentVolume?, isMuted? }`. -/
structure ControlSettings where
  speakerIp : Option String
  volumeStep : Option Int
  currentVolume : Option Int
  isMuted : Option Bool
  deriving DecidableEq, Repr

/-- Observable effects of the control's handlers: a settings write and
the display update performed by `updateVolumeDisplay`. -/
inductive CEff where
  | setSettings (s : ControlSettings)
  | updateDisplay (volume : Int) (isMuted : Bool)
  deriving DecidableEq, Repr

/-- `SonosVolumeControl.onDialRotate`: returns immediately when
`settings.isMuted` is truthy; otherwise computes
`newVolume = Math.max(0, Math.min(100, currentVolume + step * ticks))`
with `step = volumeStep ?? 2` and `currentVolume = currentVolume ?? 50`,
writes the updated settings back, and updates the display. -/
def onDialRotate (settings : ControlSettings) (ticks : Int) :
    ControlSettings × List CEff :=
  let step := settings.volumeStep.getD 2
  if settings.isMuted.getD false then (settings, [])
  else
    let volumeChange := step * ticks
    let currentVolume := settings.currentVolume.getD 50
    let newVolume := SonosVolumeDial.clamp100 (currentVolume + volumeChange)
    let s1 : ControlSettings := { settings with currentVolume := some newVolume }
    (s1, [CEff.setSettings s1, CEff.updateDisplay newVolume false])

end SonosVolumeControl

namespace SonosVolumeDial

/-- Concrete settings used by the closed instantiations below. -/
def wSettings : Settings :=
  { value := some 50, speakerIp := some "192.168.1.5", volumeStep := some 5 }

/-- A live polling state with a rotation in progress. -/
def wRotState : DialState :=
  { initialState with
      pollActive := true
      currentAction := true
      currentSettings := some wSettings
      sonos := some "192.168.1.5"
      isRotating := true }

/-- A live polling state with no rotation in progress. -/
def wPollState : DialState :=
  { initialState with
      pollActive := true
      currentAction := true
      currentSettings := some wSettings
      sonos := some "192.168.1.5" }

/-- A live polling state whose connection handle has been invalidated. -/
def wNoConnState : DialState :=
  { initialState with
      pollActive := true
      currentAction := true
      currentSettings := some wSettings }

/-- A state whose device is muted and connected. -/
def wMutedState : DialState :=
  { initialState with
      sonos := some "192.168.1.5"
      isMuted := true }

/-- A single rotation event carrying `wSettings` and one positive tick. -/
def wRotateEv : RotateEv := { settings := wSettings, ticks := 1 }

end SonosVolumeDial

namespace SonosVolumeDial

theorem startPolling_sonos (st : DialState) :
    (startPolling st).sonos = st.sonos := by
  unfold startPolling
  split
  · rfl
  · split <;> rfl

theorem startPolling_isMuted (st : DialState) :
    (startPolling st).isMuted = st.isMuted := by
  unfold startPolling
  split
  · rfl
  · split <;> rfl

theorem startPolling_lastKnownVolume (st : DialState) :
    (startPolling st).lastKnownVolume = st.lastKnownVolume := by
  unfold startPolling
  split
  · rfl
  · split <;> rfl

theorem fireFinish_sonos (st : DialState) :
    (fireFinish st).sonos = st.sonos := by
  unfold fireFinish
  rw [startPolling_sonos]

theorem fireFinish_isMuted (st : DialState) :
    (fireFinish st).isMuted = st.isMuted := by
  unfold fireFinish
  rw [startPolling_isMuted]

end SonosVolumeDial

namespace SonosVolumeDial

/-- C4: For every rotation event with any integer tick count and any
configured step, the new cached volume (`lastKnownVolume` after
`onDialRotate`) equals
`max 0 (min 100 (previousValue + ticks * volumeStep))`, where
`previousValue` is the settings value defaulting to the cached volume
and `volumeStep` defaults to 5; in particular the cached volume lies in
`[0, 100]` after every rotation, regardless of input magnitude. -/
theorem rotate_clamps_volume (st : DialState) (ev : RotateEv) :
    (onDialRotate st ev).1.lastKnownVolume =
      max 0 (min 100 ((ev.settings.value.getD st.lastKnownVolume) +
        ev.ticks * ev.settings.volumeStep.getD 5)) ∧
    0 ≤ (onDialRotate st ev).1.lastKnownVolume ∧
    (onDialRotate st ev).1.lastKnownVolume ≤ 100 := by
  have heq : (onDialRotate st ev).1.lastKnownVolume =
      max 0 (min 100 ((ev.settings.value.getD st.lastKnownVolume) +
        ev.ticks * ev.settings.volumeStep.getD 5)) := by
    unfold onDialRotate clamp100
    cases h : ev.settings.speakerIp <;> simp [h]
  refine ⟨heq, ?_, ?_⟩ <;> rw [heq] <;> omega

/-- C9: The mute-toggle handler triggered by a dial press and the one
triggered by a touch tap are behaviorally identical: for every state,
event payload and network outcome, `onDialUp` and `onTouchTap` produce
the same resulting state and the same effect trace. -/
theorem dialUp_touchTap_identical :
    onDialUp = onTouchTap := rfl

/-- C7: After `onWillDisappear`, the pending debounce timer and the
poll loop are cleared unconditionally, so the armed `setVolume`
callback can never fire: running the timer against the torn-down state
is a no-op producing no effects. -/
theorem disappear_kills_pending_write (st : DialState) (muteOk volOk : Bool) :
    (onWillDisappear st).volumeChangeTimeout = none ∧
    (onWillDisappear st).pollActive = false ∧
    (onWillDisappear st).pollTimeoutId = false ∧
    fireIfPending (onWillDisappear st) muteOk volOk =
      (onWillDisappear st, []) := by
  unfold onWillDisappear stopPolling fireIfPending
  simp

/-- C3 (bug evidence): `onDidReceiveSettings` stores the incoming
settings into `currentSettings` before comparing the incoming
`speakerIp` against `currentSettings?.speakerIp`, so the comparison is
against the value just stored and the reconnect branch is unreachable:
for every prior state, every incoming settings object (including one
with a different speaker address) and every read outcome, the handler
only records the new settings — the connection handle, the poller and
the cache are untouched and no effects are produced. -/
theorem settingsChange_reconnect_unreachable (st : DialState)
    (s : Settings) (r : Option (Int × Bool)) :
    onDidReceiveSettings st s r =
      ({ st with currentSettings := some s }, []) := by
  unfold onDidReceiveSettings
  simp

end SonosVolumeDial

/-- C10: In the `SonosVolumeControl` action registered by the plugin
entry point, a rotation event that arrives while the stored mute flag
is `some true` is a complete no-op: the settings (including
`currentVolume`) are returned unchanged and no settings write or
display update is emitted. -/
theorem control_rotate_muted_noop (s : SonosVolumeControl.ControlSettings)
    (t : Int) (h : s.isMuted = some true) :
    SonosVolumeControl.onDialRotate s t = (s, []) := by
  unfold SonosVolumeControl.onDialRotate
  simp [h]

/-- Closed instantiation of `control_rotate_muted_noop` at a concrete
muted settings record and tick count. -/
theorem control_rotate_muted_noop_witness :
    (SonosVolumeControl.ControlSettings.mk (some "192.168.1.5") (some 2)
        (some 40) (some true)).isMuted = some true ∧
    SonosVolumeControl.onDialRotate
        (SonosVolumeControl.ControlSettings.mk (some "192.168.1.5") (some 2)
          (some 40) (some true)) 3 =
      (SonosVolumeControl.ControlSettings.mk (some "192.168.1.5") (some 2)
        (some 40) (some true), []) :=
  ⟨rfl, control_rotate_muted_noop _ 3 rfl⟩

namespace SonosVolumeDial

/-- C2: For every poll cycle that completes (reaches the device read)
while `isRotating` is true, the cached volume and cached mute state are
left unchanged — the poll results are discarded — and the poller still
reschedules its next wake normally (the loop stays active and a next
wake is scheduled). -/
theorem poll_discards_while_rotating (st : DialState) (cs : Settings)
    (r : Option (Int × Bool))
    (hrot : st.isRotating = true) (hact : st.pollActive = true)
    (hca : st.currentAction = true) (hcs : st.currentSettings = some cs)
    (hconn : st.sonos.isSome = true ∨ cs.speakerIp.isSome = true) :
    (pollWithDelay st r).1.lastKnownVolume = st.lastKnownVolume ∧
    (pollWithDelay st r).1.isMuted = st.isMuted ∧
    (pollWithDelay st r).1.pollActive = true ∧
    (pollWithDelay st r).1.pollTimeoutId = true := by
  unfold pollWithDelay pollRead pollReschedule
  rw [hcs, hca, hact]
  cases hs : st.sonos with
  | some c =>
      cases r with
      | none => simp [hact]
      | some p => cases hip : cs.speakerIp <;> simp [hrot, hact]
  | none =>
      cases hip : cs.speakerIp with
      | none => simp [hs, hip] at hconn
      | some ip =>
          cases r with
          | none => simp [hip, hact]
          | some p => simp [hip, hrot, hact]

/-- Closed instantiation of `poll_discards_while_rotating`: a poll
result `(30, true)` arriving while `wRotState` is rotating leaves the
cache at its prior values and reschedules. -/
theorem poll_discards_while_rotating_witness :
    (pollWithDelay wRotState (some (30, true))).1.lastKnownVolume =
      wRotState.lastKnownVolume ∧
    (pollWithDelay wRotState (some (30, true))).1.isMuted =
      wRotState.isMuted ∧
    (pollWithDelay wRotState (some (30, true))).1.pollActive = true ∧
    (pollWithDelay wRotState (some (30, true))).1.pollTimeoutId = true :=
  poll_discards_while_rotating wRotState wSettings (some (30, true))
    rfl rfl rfl rfl (Or.inl rfl)

/-- C6: For every poll cycle whose device read fails, the poller does
not stop (the loop stays active) and surfaces no user-visible alert; it
invalidates the connection and the next wake is still rescheduled
through the `finally` path. -/
theorem poll_failure_keeps_polling (st : DialState) (cs : Settings)
    (hact : st.pollActive = true) (hca : st.currentAction = true)
    (hcs : st.currentSettings = some cs)
    (hconn : st.sonos.isSome = true ∨ cs.speakerIp.isSome = true) :
    (pollWithDelay st none).1.pollActive = true ∧
    (pollWithDelay st none).1.pollTimeoutId = true ∧
    (pollWithDelay st none).1.sonos = none ∧
    Eff.showAlert ∉ (pollWithDelay st none).2 := by
  unfold pollWithDelay pollRead pollReschedule
  rw [hcs, hca, hact]
  cases hs : st.sonos with
  | some c => simp [hact]
  | none =>
      cases hip : cs.speakerIp with
      | none => simp [hs, hip] at hconn
      | some ip => simp [hip, hact]

/-- Closed instantiation of `poll_failure_keeps_polling`: a failed read
against `wPollState` keeps the loop active, schedules the next wake,
clears the handle and emits no alert. -/
theorem poll_failure_keeps_polling_witness :
    (pollWithDelay wPollState none).1.pollActive = true ∧
    (pollWithDelay wPollState none).1.pollTimeoutId = true ∧
    (pollWithDelay wPollState none).1.sonos = none ∧
    Eff.showAlert ∉ (pollWithDelay wPollState none).2 :=
  poll_failure_keeps_polling wPollState wSettings rfl rfl rfl (Or.inl rfl)

end SonosVolumeDial

namespace SonosVolumeDial

/-- C5: After any failed network operation the connection handle is
absent, and the next operation through either path constructs a new
handle for the configured address instead of reusing a stale one.
Conjuncts: (1) a failed debounced volume write leaves `sonos = none`;
(2) a failed mute toggle leaves `sonos = none`; (3) a failed poll read
leaves `sonos = none`; (4) the debounce callback run with no handle
constructs `new Sonos(ip)`; (5) a poll cycle run with no handle and a
configured address constructs `new Sonos(ip)`. -/
theorem failure_invalidates_then_reconnects :
    (∀ (st : DialState) (ip : String) (v : Int),
        (fireDebounce st ip v true false).1.sonos = none) ∧
    (∀ (st : DialState) (s : Settings) (ip : String),
        s.speakerIp = some ip →
        (onDialUp st { settings := s } false).1.sonos = none) ∧
    (∀ (st : DialState) (cs : Settings) (c : String),
        st.pollActive = true → st.currentAction = true →
        st.currentSettings = some cs → st.sonos = some c →
        (pollWithDelay st none).1.sonos = none) ∧
    (∀ (st : DialState) (ip : String) (v : Int) (muteOk volOk : Bool),
        st.sonos = none →
        Eff.netNewSonos ip ∈ (fireDebounce st ip v muteOk volOk).2) ∧
    (∀ (st : DialState) (cs : Settings) (ip : String)
        (r : Option (Int × Bool)),
        st.pollActive = true → st.currentAction = true →
        st.currentSettings = some cs → cs.speakerIp = some ip →
        st.sonos = none →
        Eff.netNewSonos ip ∈ (pollWithDelay st r).2) := by
  refine ⟨?_, ?_, ?_, ?_, ?_⟩
  · intro st ip v
    unfold fireDebounce fireConn fireUnmute
    cases hs : st.sonos <;> cases hm : st.isMuted <;>
      simp [hm, fireFinish_sonos]
  · intro st s ip hip
    unfold onDialUp
    cases hs : st.sonos <;> simp [hip, hs]
  · intro st cs c hact hca hcs hs
    unfold pollWithDelay pollRead pollReschedule
    rw [hcs, hca, hact, hs]
    simp [hact]
  · intro st ip v muteOk volOk hs
    unfold fireDebounce fireConn fireUnmute
    cases hm : st.isMuted <;> cases muteOk <;> cases volOk <;>
      simp [hs, hm]
  · intro st cs ip r hact hca hcs hip hs
    unfold pollWithDelay pollRead pollReschedule
    rw [hcs, hca, hact, hs]
    cases r with
    | none => simp [hip]
    | some p =>
        simp only [hip, Bool.not_true, Bool.false_eq_true, if_false]
        split <;> simp

/-- Closed instantiations of `failure_invalidates_then_reconnects`:
each conjunct applied at a concrete state. -/
theorem failure_invalidates_then_reconnects_witness :
    (fireDebounce wMutedState "192.168.1.5" 60 true false).1.sonos = none ∧
    (onDialUp wMutedState { settings := wSettings } false).1.sonos = none ∧
    (pollWithDelay wPollState none).1.sonos = none ∧
    Eff.netNewSonos "192.168.1.5" ∈
      (fireDebounce wNoConnState "192.168.1.5" 60 true true).2 ∧
    Eff.netNewSonos "192.168.1.5" ∈
      (pollWithDelay wNoConnState (some (30, false))).2 :=
  ⟨failure_invalidates_then_reconnects.1 wMutedState "192.168.1.5" 60,
   failure_invalidates_then_reconnects.2.1 wMutedState wSettings
     "192.168.1.5" rfl,
   failure_invalidates_then_reconnects.2.2.1 wPollState wSettings
     "192.168.1.5" rfl rfl rfl rfl,
   failure_invalidates_then_reconnects.2.2.2.1 wNoConnState "192.168.1.5"
     60 true true rfl,
   failure_invalidates_then_reconnects.2.2.2.2 wNoConnState wSettings
     "192.168.1.5" (some (30, false)) rfl rfl rfl rfl rfl⟩

/-- C8: When the debounced volume write fires while the cached mute
state is true (and the handle is live), the engine issues
`setMuted(false)` strictly before `setVolume(v)` — the effect trace is
exactly `[setMuted false, setVolume v]` — and the local mute flag is
already false in the state from which the volume write is issued (the
state produced by the unmute phase), hence also in the final state. -/
theorem muted_rotation_unmutes_first (st : DialState) (ip c : String)
    (v : Int) (hm : st.isMuted = true) (hc : st.sonos = some c) :
    (fireDebounce st ip v true true).2 =
      [Eff.netSetMuted false, Eff.netSetVolume v] ∧
    (fireUnmute st true).1 = some { st with isMuted := false } ∧
    (fireDebounce st ip v true true).1.isMuted = false := by
  unfold fireDebounce fireConn fireUnmute
  rw [hc]
  simp [hm, fireFinish_isMuted]

/-- Closed instantiation of `muted_rotation_unmutes_first` at
`wMutedState`. -/
theorem muted_rotation_unmutes_first_witness :
    (fireDebounce wMutedState "192.168.1.5" 60 true true).2 =
      [Eff.netSetMuted false, Eff.netSetVolume 60] ∧
    (fireUnmute wMutedState true).1 =
      some { wMutedState with isMuted := false } ∧
    (fireDebounce wMutedState "192.168.1.5" 60 true true).1.isMuted =
      false :=
  muted_rotation_unmutes_first wMutedState "192.168.1.5" "192.168.1.5"
    60 rfl rfl

end SonosVolumeDial

namespace SonosVolumeDial

theorem setVolumeArgs_append (a b : List Eff) :
    setVolumeArgs (a ++ b) = setVolumeArgs a ++ setVolumeArgs b := by
  unfold setVolumeArgs
  exact List.filterMap_append a b _

theorem onDialRotate_effs_no_setVolume (st : DialState) (ev : RotateEv) :
    setVolumeArgs (onDialRotate st ev).2 = [] := by
  unfold onDialRotate setVolumeArgs
  cases h : ev.settings.speakerIp <;> simp [h]

theorem rotateBurstSt_cons (st : DialState) (e : RotateEv)
    (rest : List RotateEv) :
    rotateBurstSt st (e :: rest) = rotateBurstSt (onDialRotate st e).1 rest :=
  rfl

theorem rotateBurstEffs_no_setVolume (st : DialState)
    (evs : List RotateEv) :
    setVolumeArgs (rotateBurstEffs st evs) = [] := by
  induction evs generalizing st with
  | nil => rfl
  | cons e rest ih =>
      unfold rotateBurstEffs
      rw [setVolumeArgs_append, onDialRotate_effs_no_setVolume, ih]
      rfl

theorem onDialRotate_pending (st : DialState) (ev : RotateEv) (ip : String)
    (h : ev.settings.speakerIp = some ip) :
    (onDialRotate st ev).1.volumeChangeTimeout =
      some (ip, (onDialRotate st ev).1.lastKnownVolume) ∧
    (onDialRotate st ev).1.isMuted = st.isMuted := by
  unfold onDialRotate
  simp [h]

theorem rotateBurst_pending_inv (ip : String) (evs : List RotateEv) :
    ∀ st : DialState,
      (∀ ev ∈ evs, ev.settings.speakerIp = some ip) →
      st.volumeChangeTimeout = some (ip, st.lastKnownVolume) →
      (rotateBurstSt st evs).volumeChangeTimeout =
        some (ip, (rotateBurstSt st evs).lastKnownVolume) ∧
      (rotateBurstSt st evs).isMuted = st.isMuted := by
  induction evs with
  | nil => exact fun st _ hst => ⟨hst, rfl⟩
  | cons e rest ih =>
      intro st hall hst
      have he : e.settings.speakerIp = some ip := hall e (by simp)
      have hrest : ∀ ev ∈ rest, ev.settings.speakerIp = some ip :=
        fun ev hv => hall ev (by simp [hv])
      have hp := onDialRotate_pending st e ip he
      have hrec := ih (onDialRotate st e).1 hrest hp.1
      exact ⟨hrec.1, by rw [rotateBurstSt_cons, hrec.2, hp.2]⟩

theorem fireDebounce_args (st : DialState) (ip : String) (v : Int)
    (volOk : Bool) :
    setVolumeArgs (fireDebounce st ip v true volOk).2 = [v] := by
  unfold fireDebounce fireConn fireUnmute setVolumeArgs
  cases hs : st.sonos <;> cases hm : st.isMuted <;> cases volOk <;>
    simp [hm]

/-- C1: For every nonempty sequence of rotation ticks processed within
one debounce window (each event carrying the configured speaker IP), no
`setVolume` call is issued during the burst; after the burst the single
armed debounce timer captures the final settled cached volume; and
firing that timer issues exactly one `setVolume`, whose argument is
that final value (each tick cancelled the previous timer, so
intermediate values were never sent). -/
theorem debounce_burst_single_setVolume (st : DialState) (ip : String)
    (e : RotateEv) (rest : List RotateEv) (volOk : Bool)
    (hall : ∀ ev ∈ e :: rest, ev.settings.speakerIp = some ip) :
    setVolumeArgs (rotateBurstEffs st (e :: rest)) = [] ∧
    (rotateBurstSt st (e :: rest)).volumeChangeTimeout =
      some (ip, (rotateBurstSt st (e :: rest)).lastKnownVolume) ∧
    setVolumeArgs
        (fireIfPending (rotateBurstSt st (e :: rest)) true volOk).2 =
      [(rotateBurstSt st (e :: rest)).lastKnownVolume] := by
  have he : e.settings.speakerIp = some ip := hall e (by simp)
  have hrest : ∀ ev ∈ rest, ev.settings.speakerIp = some ip :=
    fun ev hv => hall ev (by simp [hv])
  have hp := onDialRotate_pending st e ip he
  have hinv := rotateBurst_pending_inv ip rest (onDialRotate st e).1
    hrest hp.1
  have hpend : (rotateBurstSt st (e :: rest)).volumeChangeTimeout =
      some (ip, (rotateBurstSt st (e :: rest)).lastKnownVolume) := by
    rw [rotateBurstSt_cons]
    exact hinv.1
  refine ⟨rotateBurstEffs_no_setVolume st (e :: rest), hpend, ?_⟩
  unfold fireIfPending
  rw [hpend]
  exact fireDebounce_args _ ip _ volOk

/-- Closed instantiation of `debounce_burst_single_setVolume`: a
one-event burst from the initial state arms the timer with the settled
value and firing it issues exactly one `setVolume` of that value. -/
theorem debounce_burst_single_setVolume_witness :
    setVolumeArgs (rotateBurstEffs initialState [wRotateEv]) = [] ∧
    (rotateBurstSt initialState [wRotateEv]).volumeChangeTimeout =
      some ("192.168.1.5",
        (rotateBurstSt initialState [wRotateEv]).lastKnownVolume) ∧
    setVolumeArgs
        (fireIfPending (rotateBurstSt initialState [wRotateEv])
          true true).2 =
      [(rotateBurstSt initialState [wRotateEv]).lastKnownVolume] :=
  debounce_burst_single_setVolume initialState "192.168.1.5" wRotateEv
    [] true
    (by
      intro ev hv
      simp only [List.mem_singleton] at hv
      subst hv
      rfl)

end SonosVolumeDial
